import Mathlib

/-!
# Verification of the writing-support vocabulary validator

A shallow embedding of `src/script.js`: the label mapping table
(`posMapping`), the part-of-speech matcher (`isPosAllowed`), the per-token
validity decision and the document pass (`checkContent`), the HTML escaper
(`escapeHtml`), the lemma derivation used for the vocabulary lookup, and the
vocabulary-load state update (`loadWordList`'s try/catch).

The external part-of-speech tagger (compromise.js) is modelled as data: a
token is its surface text together with the tagger's tag list, and the
tagger's lemma normalisation (`compromise(wordText).normalize({lemma:true}).text()`)
is an arbitrary function `normalizeLemma : String → String` passed in.
The vocabulary table (a JSON object of lemma → label list) is an association
list, looked up by key.
-/

namespace WritingSupport

/-- One unit of tagger output, as consumed by `checkContent`:
`termData.text` and `Object.keys(termData.tags)`. -/
structure Term where
  text : String
  tags : List String
deriving DecidableEq, Repr

/-- The active word list `currentWordList`: a JSON object mapping a lemma
string to the list of user part-of-speech labels allowed for it. -/
abbrev Vocab := List (String × List String)

/-- JavaScript property lookup `obj[key]` on a JSON-parsed table:
the value at the key when present, otherwise `undefined` (`none`). -/
def vocabFind (v : Vocab) (key : String) : Option (List String) :=
  (v.find? (fun p => p.1 == key)).map Prod.snd

/-- The `posMapping` object of `script.js` (lines 33-49), entry for entry:
user part-of-speech label → compromise tags (with the literal `'#'` prefix
the source writes). Note the key is `"modal auxi"`, exactly as in the
source. -/
def posMappingList : List (String × List String) :=
  [ ("adverb", ["#Adverb"])
  , ("verb", ["#Verb"])
  , ("adjective", ["#Adjective"])
  , ("noun", ["#Noun"])
  , ("preposition", ["#Preposition"])
  , ("conjunction", ["#Conjunction"])
  , ("determiner", ["#Determiner"])
  , ("pronoun", ["#Pronoun"])
  , ("be-verb", ["#Copula"])
  , ("modal auxi", ["#Modal"])
  , ("interjection", ["#Interjection"])
  , ("do-verb", ["#Verb", "#Auxiliary"])
  , ("number", ["#Value", "#NumericValue", "#Cardinal", "#Ordinal"])
  , ("have-verb", ["#Verb", "#Auxiliary"])
  , ("infinitive-to", ["#Infinitive"]) ]

/-- Property lookup `posMapping[userLabel]`: `some` tag list when the label
is a key of the mapping object, `none` (`undefined`) otherwise. -/
def posMapping (userLabel : String) : Option (List String) :=
  (posMappingList.find? (fun p => p.1 == userLabel)).map Prod.snd

/-- `isPosAllowed(compromiseTags, allowedUserPosLabels)` (lines 109-126):
for each allowed user label, look the label up in `posMapping`; when a
mapping exists, succeed as soon as some compromise tag of the token,
prefixed with `'#'`, occurs in the mapped tag list. The source's `for` loop
with early `return true` is the existential `List.any`. -/
def isPosAllowed (compromiseTags : List String) (allowedUserPosLabels : List String) : Bool :=
  allowedUserPosLabels.any (fun userLabel =>
    match posMapping userLabel with
    | some targetCompromiseTags =>
        compromiseTags.any (fun tag => targetCompromiseTags.contains ("#" ++ tag))
    | none => false)

/-- The repeated guard of lines 158 and 166:
`tags.includes('Word') && !tags.includes('Punctuation') && !tags.includes('Whitespace')`. -/
def isCheckedWord (tags : List String) : Bool :=
  tags.contains "Word" && !tags.contains "Punctuation" && !tags.contains "Whitespace"

/-- JavaScript `String.prototype.toLowerCase()`: lower-case every
character (the source only ever feeds it English text). -/
def jsToLowerCase (s : String) : String :=
  String.mk (s.data.map Char.toLower)

/-- JavaScript `a || b` on strings: the empty string is falsy. -/
def jsOrString (a b : String) : String :=
  if a.isEmpty then b else a

/-- Line 170: `compromise(wordText).normalize({ lemma: true }).text() || wordText.toLowerCase()`.
The tagger's normalisation is the parameter `normalizeLemma`. -/
def deriveLemma (normalizeLemma : String → String) (wordText : String) : String :=
  jsOrString (normalizeLemma wordText) (jsToLowerCase wordText)

/-- The per-token validity decision of `checkContent` (lines 162-208):
exempt tokens are valid; otherwise look the derived lemma up in the word
list; absent lemma is invalid; a surface form lower-casing to `"to"` takes
the special two-way check; every other word takes `isPosAllowed`. -/
def termIsValid (normalizeLemma : String → String) (currentWordList : Vocab) (t : Term) : Bool :=
  if isCheckedWord t.tags then
    let lem := deriveLemma normalizeLemma t.text
    match vocabFind currentWordList lem with
    | some allowedUserPosLabels =>
        if jsToLowerCase t.text == "to" then
          let isInfTo := t.tags.contains "Infinitive"
          let isPrep := t.tags.contains "Preposition"
          if isInfTo && allowedUserPosLabels.contains "infinitive-to" then
            true
          else if isPrep && allowedUserPosLabels.contains "preposition" then
            true
          else
            false
        else
          isPosAllowed t.tags allowedUserPosLabels
    | none => false
  else
    true

/-- `escapeHtml`'s character map (lines 232-241): the five HTML special
characters are replaced, every other character is kept. -/
def escapeHtmlChar (c : Char) : String :=
  if c = '&' then "&amp;"
  else if c = '<' then "&lt;"
  else if c = '>' then "&gt;"
  else if c = '"' then "&quot;"
  else if c = '\'' then "&#039;"
  else String.singleton c

/-- `escapeHtml(text)`: `text.replace(/[&<>"']/g, m => map[m])`, a
character-by-character replacement. -/
def escapeHtml (text : String) : String :=
  String.join (text.toList.map escapeHtmlChar)

/-- The HTML fragment `checkContent` appends for one term (lines 212-217):
the escaped text, wrapped in the invalid-word span when the term failed. -/
def renderTerm (isValid : Bool) (wordText : String) : String :=
  if isValid then
    escapeHtml wordText
  else
    "<span class=\x22invalid-word\x22>" ++ escapeHtml wordText ++ "</span>"

/-- The `terms.forEach` loop of `checkContent` (lines 147-218) after the
tagger has produced the term list: accumulates the word count and the
output HTML string, starting from `0` and `''`. -/
def checkContentTerms (normalizeLemma : String → String) (currentWordList : Vocab)
    (terms : List Term) : Nat × String :=
  terms.foldl (fun acc t =>
    let wordCount := if isCheckedWord t.tags then acc.1 + 1 else acc.1
    let isValid := termIsValid normalizeLemma currentWordList t
    (wordCount, acc.2 ++ renderTerm isValid t.text)) (0, "")

/-- The annotation sequence of the specification's Document Validator: one
`(surface text, isValid)` pair per term, in document order, the surface
text carried unmodified. -/
def annotationSeq (normalizeLemma : String → String) (currentWordList : Vocab)
    (terms : List Term) : List (String × Bool) :=
  terms.map (fun t => (t.text, termIsValid normalizeLemma currentWordList t))

/-- Rendering of one annotated pair: the escaping (and span wrapping) step,
applied at render time, after the annotation sequence is formed. -/
def renderAnnotated (a : String × Bool) : String :=
  renderTerm a.2 a.1

/-- Concatenation of the rendered annotation sequence, in order. -/
def concatRendered : List (String × Bool) → String
  | [] => ""
  | a :: rest => renderAnnotated a ++ concatRendered rest

/-- The error kinds `loadWordList`'s `try` block can raise: a rejected
`fetch`, a non-success HTTP status (line 83), or a `response.json()` parse
failure. -/
inductive LoadError where
  | fetchFailed
  | httpError (status : Nat)
  | parseFailed
deriving DecidableEq, Repr

/-- The state update `loadWordList` performs on `currentWordList`
(lines 78-100): a successful fetch-and-parse replaces the table wholesale
with the parsed object; any raised error reaches the `catch` block, which
sets the table to `{}` (line 94), discarding the previous table. -/
def loadWordListUpdate (_prev : Vocab) (result : Except LoadError Vocab) : Vocab :=
  match result with
  | .ok table => table
  | .error _ => []

/-! ## Helper lemmas

Shared unfolding lemmas for the branches of `termIsValid`, the existential
reading of `isPosAllowed`, and the characterization of the `forEach` loop
of `checkContent`. -/

/-- A term failing the word guard takes the `else` branch of line 205 and is
always valid. -/
theorem termIsValid_not_checked (nl : String → String) (v : Vocab) (t : Term)
    (h : isCheckedWord t.tags = false) : termIsValid nl v t = true := by
  simp [termIsValid, h]

/-- A checked term whose derived lemma is absent from the word list takes
branch 6 (line 199) and is invalid. -/
theorem termIsValid_checked_none (nl : String → String) (v : Vocab) (t : Term)
    (hw : isCheckedWord t.tags = true)
    (habs : vocabFind v (deriveLemma nl t.text) = none) :
    termIsValid nl v t = false := by
  simp [termIsValid, hw, habs]

/-- A checked term lower-casing to `"to"` with its lemma present takes the
special branch of lines 179-191, whose outcome is the disjunction of the
two tag/label conjunctions. -/
theorem termIsValid_checked_to (nl : String → String) (v : Vocab) (t : Term)
    (L : List String) (hw : isCheckedWord t.tags = true)
    (hL : vocabFind v (deriveLemma nl t.text) = some L)
    (hto : jsToLowerCase t.text = "to") :
    termIsValid nl v t =
      ((t.tags.contains "Infinitive" && L.contains "infinitive-to")
        || (t.tags.contains "Preposition" && L.contains "preposition")) := by
  simp only [termIsValid, hw, if_true, hL, hto]
  cases h1 : (t.tags.contains "Infinitive" && L.contains "infinitive-to") with
  | true => simp [h1]
  | false =>
    cases h2 : (t.tags.contains "Preposition" && L.contains "preposition") with
    | true => simp [h1, h2]
    | false => simp [h1, h2]

/-- A checked term not lower-casing to `"to"` with its lemma present takes
the generic branch of line 195 and is decided by `isPosAllowed`. -/
theorem termIsValid_checked_other (nl : String → String) (v : Vocab) (t : Term)
    (L : List String) (hw : isCheckedWord t.tags = true)
    (hL : vocabFind v (deriveLemma nl t.text) = some L)
    (hto : ¬ jsToLowerCase t.text = "to") :
    termIsValid nl v t = isPosAllowed t.tags L := by
  simp [termIsValid, hw, hL, hto]

/-- `isPosAllowed` succeeds exactly when some allowed user label has a
mapping entry containing one of the term tags (with the `'#'` prefix). -/
theorem isPosAllowed_iff (tags L : List String) :
    isPosAllowed tags L = true ↔
      ∃ lab ∈ L, ∃ ts, posMapping lab = some ts ∧
        ∃ tg ∈ tags, ts.contains ("#" ++ tg) = true := by
  unfold isPosAllowed
  rw [List.any_eq_true]
  constructor
  · rintro ⟨lab, hmem, hmatch⟩
    refine ⟨lab, hmem, ?_⟩
    cases hpm : posMapping lab with
    | none => rw [hpm] at hmatch; cases hmatch
    | some ts =>
      rw [hpm] at hmatch
      rw [List.any_eq_true] at hmatch
      obtain ⟨tg, htg, hc⟩ := hmatch
      exact ⟨ts, rfl, tg, htg, hc⟩
  · rintro ⟨lab, hmem, ts, hpm, tg, htg, hc⟩
    refine ⟨lab, hmem, ?_⟩
    rw [hpm]
    exact List.any_eq_true.mpr ⟨tg, htg, hc⟩

/-- `List.contains` is preserved by appending labels on the right. -/
theorem contains_append_left (L M : List String) (a : String)
    (h : L.contains a = true) : (L ++ M).contains a = true := by
  have hm : a ∈ L := by simpa using h
  simpa using List.mem_append_left M hm

/-- A successful `isPosAllowed` check survives appending further labels. -/
theorem isPosAllowed_append_left (tags L M : List String)
    (h : isPosAllowed tags L = true) : isPosAllowed tags (L ++ M) = true := by
  unfold isPosAllowed at h ⊢
  rw [List.any_append, h]
  rfl

/-- The loop of `checkContent`, run from an arbitrary accumulator: the word
count adds the number of checked terms, and the HTML output appends the
rendering of the annotation sequence. -/
theorem checkContentTerms_foldl (nl : String → String) (v : Vocab) (ts : List Term)
    (n : Nat) (s : String) :
    List.foldl (fun acc t =>
        let wordCount := if isCheckedWord t.tags then acc.1 + 1 else acc.1
        let isValid := termIsValid nl v t
        (wordCount, acc.2 ++ renderTerm isValid t.text)) (n, s) ts
      = (n + ts.countP (fun t => isCheckedWord t.tags),
         s ++ concatRendered (annotationSeq nl v ts)) := by
  induction ts generalizing n s with
  | nil => simp [annotationSeq, concatRendered]
  | cons t ts ih =>
    rw [List.foldl_cons, ih]
    simp only [annotationSeq, List.map_cons, concatRendered, List.countP_cons,
      renderAnnotated, Prod.mk.injEq]
    constructor
    · cases isCheckedWord t.tags
      · simp
      · simp
        omega
    · rw [String.append_assoc]

/-- `checkContentTerms` computes the checked-term count and the rendered
annotation sequence. -/
theorem checkContentTerms_eq (nl : String → String) (v : Vocab) (ts : List Term) :
    checkContentTerms nl v ts
      = (ts.countP (fun t => isCheckedWord t.tags),
         concatRendered (annotationSeq nl v ts)) := by
  unfold checkContentTerms
  rw [checkContentTerms_foldl]
  simp

/-! ## Claim theorems -/

/-- Claim C1: for a checked token whose surface text case-insensitively
equals `"to"` and whose derived lemma is present in the word list, validity
holds exactly when (the tag set contains `Infinitive` and the allowed
labels contain `infinitive-to`) or (the tag set contains `Preposition` and
the allowed labels contain `preposition`); every other combination is
invalid. The right side of the equivalence makes no reference to
`posMapping` or `isPosAllowed`: the generic label-match path is not
consulted for such a token. -/
theorem to_special_case_characterization (nl : String → String) (v : Vocab)
    (t : Term) (L : List String)
    (hw : isCheckedWord t.tags = true)
    (hto : jsToLowerCase t.text = "to")
    (hL : vocabFind v (deriveLemma nl t.text) = some L) :
    termIsValid nl v t = true ↔
      (t.tags.contains "Infinitive" = true ∧ L.contains "infinitive-to" = true) ∨
      (t.tags.contains "Preposition" = true ∧ L.contains "preposition" = true) := by
  rw [termIsValid_checked_to nl v t L hw hL hto]
  simp only [Bool.or_eq_true, Bool.and_eq_true]

/-- Witness for C1: the token `"to"` tagged as infinitive marker, with the
word list allowing `infinitive-to` for the lemma `"to"`, is valid. -/
theorem to_special_case_characterization_witness :
    termIsValid (fun s => s) [("to", ["infinitive-to"])]
      { text := "to", tags := ["Word", "Infinitive"] } = true :=
  (to_special_case_characterization (fun s => s) [("to", ["infinitive-to"])]
      { text := "to", tags := ["Word", "Infinitive"] } ["infinitive-to"]
      (by decide) (by decide) (by decide)).mpr
    (Or.inl ⟨by decide, by decide⟩)

/-- Claim C2, counterexample: the claim restricts the `"to"` special case
to tokens whose surface text equals `"to"`, but the source (line 179)
lower-cases the surface text first. The sentence-initial token `"To"` has
surface text different from `"to"`, is checked, has its lemma `"to"`
present with allowed label `verb`, and `verb` maps to a tag of the token,
so the claim predicts valid; the code takes the special branch and returns
invalid. -/
theorem generic_path_case_counterexample :
    ("To" : String) ≠ "to" ∧
    isCheckedWord ["Word", "Verb"] = true ∧
    vocabFind [("to", ["verb"])] (deriveLemma (fun _ => "to") "To") = some ["verb"] ∧
    isPosAllowed ["Word", "Verb"] ["verb"] = true ∧
    termIsValid (fun _ => "to") [("to", ["verb"])]
      { text := "To", tags := ["Word", "Verb"] } = false := by
  decide

/-- Claim C2 (amended: the excluded tokens are those whose surface text
case-insensitively equals `"to"`, matching the lower-casing the source
performs at line 179): a checked token not lower-casing to `"to"` whose
derived lemma is present is valid exactly when some allowed label has a
mapping entry meeting the token's tag set; a present lemma with no
matching label is plain `false`, and unmapped labels never contribute. -/
theorem generic_label_match_characterization (nl : String → String) (v : Vocab)
    (t : Term) (L : List String)
    (hw : isCheckedWord t.tags = true)
    (hto : jsToLowerCase t.text ≠ "to")
    (hL : vocabFind v (deriveLemma nl t.text) = some L) :
    termIsValid nl v t = true ↔
      ∃ lab ∈ L, ∃ ts, posMapping lab = some ts ∧
        ∃ tg ∈ t.tags, ts.contains ("#" ++ tg) = true := by
  rw [termIsValid_checked_other nl v t L hw hL hto]
  exact isPosAllowed_iff t.tags L

/-- Witness for C2: `"go"` tagged `Verb` with allowed label `verb` is
valid via the mapping entry `verb → [#Verb]`. -/
theorem generic_label_match_characterization_witness :
    termIsValid (fun s => s) [("go", ["verb"])]
      { text := "go", tags := ["Word", "Verb"] } = true :=
  (generic_label_match_characterization (fun s => s) [("go", ["verb"])]
      { text := "go", tags := ["Word", "Verb"] } ["verb"]
      (by decide) (by decide) (by decide)).mpr
    ⟨"verb", by decide, ["#Verb"], by decide, "Verb", by decide, by decide⟩

/-- Claim C3: a token whose tag set lacks `Word`, or contains `Punctuation`
or `Whitespace`, is valid for every word list (the list, and with it the
empty table, is universally quantified) and every lemma normalizer. -/
theorem structural_tokens_always_valid (nl : String → String) (v : Vocab) (t : Term)
    (h : t.tags.contains "Word" = false ∨ t.tags.contains "Punctuation" = true ∨
      t.tags.contains "Whitespace" = true) :
    termIsValid nl v t = true := by
  apply termIsValid_not_checked
  unfold isCheckedWord
  rcases h with h | h | h
  · simp only [h, Bool.false_and]
  · simp only [h, Bool.not_true, Bool.and_false, Bool.false_and]
  · simp only [h, Bool.not_true, Bool.and_false]

/-- Witness for C3: a period token is valid against the empty table. -/
theorem structural_tokens_always_valid_witness :
    termIsValid (fun s => s) [] { text := ".", tags := ["Punctuation"] } = true :=
  structural_tokens_always_valid (fun s => s) [] { text := ".", tags := ["Punctuation"] }
    (Or.inr (Or.inl (by decide)))

/-- Claim C4: a checked token whose derived lemma is not a key of the word
list is invalid, for every tag set passing the word guard and every
surface text. -/
theorem absent_lemma_invalid (nl : String → String) (v : Vocab) (t : Term)
    (hw : isCheckedWord t.tags = true)
    (habs : vocabFind v (deriveLemma nl t.text) = none) :
    termIsValid nl v t = false :=
  termIsValid_checked_none nl v t hw habs

/-- Witness for C4: `"home"` is invalid against a list holding only `"go"`. -/
theorem absent_lemma_invalid_witness :
    termIsValid (fun s => s) [("go", ["verb"])]
      { text := "home", tags := ["Word", "Noun"] } = false :=
  absent_lemma_invalid (fun s => s) [("go", ["verb"])]
    { text := "home", tags := ["Word", "Noun"] } (by decide) (by decide)

/-- Claim C5, counterexample: the claim asserts an entry for the label
`"modal-auxiliary"` mapping to the `Modal` tag, but the key written in the
source (line 43) is `"modal auxi"`. The lookup for `"modal-auxiliary"` is
absent, and a token tagged `Modal` whose allowed labels are
`["modal-auxiliary"]` does not match. -/
theorem modal_auxiliary_key_counterexample :
    posMapping "modal-auxiliary" = none ∧
    isPosAllowed ["Modal"] ["modal-auxiliary"] = false := by
  decide

/-- Claim C5 (amended: the modal-auxiliary entry is keyed `"modal auxi"`,
as written in the source, not `"modal-auxiliary"`; the mapped tag names
carry the `'#'` prefix that `isPosAllowed` prepends to token tags before
comparing): the mapping holds the fifteen fixed entries, and a label with
no entry yields an absent lookup and never produces a match. -/
theorem label_mapping_entries :
    posMapping "adverb" = some ["#Adverb"] ∧
    posMapping "verb" = some ["#Verb"] ∧
    posMapping "adjective" = some ["#Adjective"] ∧
    posMapping "noun" = some ["#Noun"] ∧
    posMapping "preposition" = some ["#Preposition"] ∧
    posMapping "conjunction" = some ["#Conjunction"] ∧
    posMapping "determiner" = some ["#Determiner"] ∧
    posMapping "pronoun" = some ["#Pronoun"] ∧
    posMapping "be-verb" = some ["#Copula"] ∧
    posMapping "modal auxi" = some ["#Modal"] ∧
    posMapping "interjection" = some ["#Interjection"] ∧
    posMapping "do-verb" = some ["#Verb", "#Auxiliary"] ∧
    posMapping "number" = some ["#Value", "#NumericValue", "#Cardinal", "#Ordinal"] ∧
    posMapping "have-verb" = some ["#Verb", "#Auxiliary"] ∧
    posMapping "infinitive-to" = some ["#Infinitive"] ∧
    ∀ lab, posMapping lab = none → ∀ tags, isPosAllowed tags [lab] = false := by
  refine ⟨by decide, by decide, by decide, by decide, by decide, by decide, by decide,
    by decide, by decide, by decide, by decide, by decide, by decide, by decide,
    by decide, ?_⟩
  intro lab h tags
  simp [isPosAllowed, h]

/-- Witness for C5: an unmapped label never matches, applied to a label
with no entry. -/
theorem label_mapping_entries_witness :
    isPosAllowed ["Noun"] ["xyz"] = false :=
  label_mapping_entries.2.2.2.2.2.2.2.2.2.2.2.2.2.2.2 "xyz" (by decide) ["Noun"]

/-- Claim C6: a failed vocabulary load resets the active table to the
empty table, whatever table was active before, and a validation pass
against the empty table marks every checked token invalid. -/
theorem load_failure_resets_table (prev : Vocab) (e : LoadError)
    (nl : String → String) (t : Term)
    (hw : isCheckedWord t.tags = true) :
    loadWordListUpdate prev (Except.error e) = [] ∧
    termIsValid nl (loadWordListUpdate prev (Except.error e)) t = false := by
  refine ⟨rfl, ?_⟩
  exact termIsValid_checked_none nl [] t hw rfl

/-- Witness for C6: a parse failure wipes a table that held `"go"`, and
the token `"go"` becomes invalid. -/
theorem load_failure_resets_table_witness :
    loadWordListUpdate [("go", ["verb"])] (Except.error LoadError.parseFailed) = [] ∧
    termIsValid (fun s => s)
      (loadWordListUpdate [("go", ["verb"])] (Except.error LoadError.parseFailed))
      { text := "go", tags := ["Word", "Verb"] } = false :=
  load_failure_resets_table [("go", ["verb"])] LoadError.parseFailed (fun s => s)
    { text := "go", tags := ["Word", "Verb"] } (by decide)

/-- Claim C7: the HTML output of the loop is exactly the concatenation, in
document order, of the renderings of an annotation sequence that carries
one pair per term with the surface text unmodified: the sequence has the
same length as the term list and its texts are the term texts, so no term
is dropped, reordered, or merged, and escaping happens only in the
rendering step. -/
theorem annotation_sequence_faithful (nl : String → String) (v : Vocab)
    (ts : List Term) :
    (checkContentTerms nl v ts).2 = concatRendered (annotationSeq nl v ts) ∧
    (annotationSeq nl v ts).length = ts.length ∧
    (annotationSeq nl v ts).map Prod.fst = ts.map Term.text := by
  refine ⟨?_, ?_, ?_⟩
  · rw [checkContentTerms_eq]
  · simp [annotationSeq]
  · simp [annotationSeq]

/-- Claim C8: the word count of the loop equals the number of terms whose
tag set contains `Word` and neither `Punctuation` nor `Whitespace`; the
count is the same under any two word lists, so it does not depend on
validity. -/
theorem word_count_characterization (nl : String → String) (v v2 : Vocab)
    (ts : List Term) :
    (checkContentTerms nl v ts).1 = ts.countP (fun t => isCheckedWord t.tags) ∧
    (checkContentTerms nl v ts).1 = (checkContentTerms nl v2 ts).1 := by
  rw [checkContentTerms_eq, checkContentTerms_eq]
  exact ⟨rfl, rfl⟩

/-- Claim C9: the lemma used for the lookup is the tagger's normalized
lemma when that is non-empty and the lower-cased surface text when the
tagger yields the empty string; the validity of a token depends on the
word list only through its entry at that derived lemma. -/
theorem lemma_derivation_fallback (nl : String → String) (s : String)
    (v1 v2 : Vocab) (t : Term)
    (hlook : vocabFind v1 (deriveLemma nl t.text) = vocabFind v2 (deriveLemma nl t.text)) :
    (nl s ≠ "" → deriveLemma nl s = nl s) ∧
    (nl s = "" → deriveLemma nl s = jsToLowerCase s) ∧
    termIsValid nl v1 t = termIsValid nl v2 t := by
  refine ⟨?_, ?_, ?_⟩
  · intro h
    simp [deriveLemma, jsOrString, String.isEmpty_iff, h]
  · intro h
    simp [deriveLemma, jsOrString, String.isEmpty_iff, h]
  · simp only [termIsValid]
    rw [hlook]

/-- Witness for C9: a normalizer returning the empty string falls back to
the lower-cased surface text, a non-empty normalization is used as is, and
two tables agreeing at the lemma `"go"` validate the token alike. -/
theorem lemma_derivation_fallback_witness :
    deriveLemma (fun _ => "") "Went" = jsToLowerCase "Went" ∧
    deriveLemma (fun _ => "go") "Went" = "go" ∧
    termIsValid (fun s => s) [("go", ["verb"])]
        { text := "go", tags := ["Word", "Verb"] }
      = termIsValid (fun s => s) [("go", ["verb"]), ("up", ["adverb"])]
        { text := "go", tags := ["Word", "Verb"] } := by
  refine ⟨?_, ?_, ?_⟩
  · exact (lemma_derivation_fallback (fun _ => "") "Went" [] [] ⟨"x", []⟩ rfl).2.1 rfl
  · exact (lemma_derivation_fallback (fun _ => "go") "Went" [] [] ⟨"x", []⟩ rfl).1 (by decide)
  · exact (lemma_derivation_fallback (fun s => s) "q" [("go", ["verb"])]
      [("go", ["verb"]), ("up", ["adverb"])]
      { text := "go", tags := ["Word", "Verb"] } (by decide)).2.2

/-- Claim C10: validity is monotone in the allowed-labels list — a token
valid when its lemma maps to `L` stays valid when the entry is extended to
`L ++ M`, through the `"to"` special branch and the generic branch alike —
and a label with no mapping entry at the head of the list leaves the
outcome of the remaining labels unchanged. -/
theorem validity_monotone_in_labels (nl : String → String) (v1 v2 : Vocab)
    (t : Term) (L M : List String)
    (h1 : vocabFind v1 (deriveLemma nl t.text) = some L)
    (h2 : vocabFind v2 (deriveLemma nl t.text) = some (L ++ M))
    (hv : termIsValid nl v1 t = true) :
    termIsValid nl v2 t = true ∧
    ∀ (tags : List String) (lab : String) (rest : List String),
      posMapping lab = none → isPosAllowed tags (lab :: rest) = isPosAllowed tags rest := by
  constructor
  · cases hw : isCheckedWord t.tags with
    | false => exact termIsValid_not_checked nl v2 t hw
    | true =>
      by_cases hto : jsToLowerCase t.text = "to"
      · rw [termIsValid_checked_to nl v1 t L hw h1 hto] at hv
        rw [termIsValid_checked_to nl v2 t (L ++ M) hw h2 hto]
        simp only [Bool.or_eq_true, Bool.and_eq_true] at hv ⊢
        rcases hv with ⟨ha, hc⟩ | ⟨ha, hc⟩
        · exact Or.inl ⟨ha, contains_append_left L M _ hc⟩
        · exact Or.inr ⟨ha, contains_append_left L M _ hc⟩
      · rw [termIsValid_checked_other nl v1 t L hw h1 hto] at hv
        rw [termIsValid_checked_other nl v2 t (L ++ M) hw h2 hto]
        exact isPosAllowed_append_left t.tags L M hv
  · intro tags lab rest h
    simp [isPosAllowed, h]

/-- Witness for C10: `"go"` valid under the entry `["verb"]` stays valid
under `["verb", "noun"]`, and an unmapped head label is skipped. -/
theorem validity_monotone_in_labels_witness :
    termIsValid (fun s => s) [("go", ["verb", "noun"])]
      { text := "go", tags := ["Word", "Verb"] } = true ∧
    isPosAllowed ["Verb"] ["xyzzy", "verb"] = isPosAllowed ["Verb"] ["verb"] := by
  constructor
  · exact (validity_monotone_in_labels (fun s => s) [("go", ["verb"])]
      [("go", ["verb", "noun"])] { text := "go", tags := ["Word", "Verb"] }
      ["verb"] ["noun"] (by decide) (by decide) (by decide)).1
  · exact (validity_monotone_in_labels (fun s => s) [("go", ["verb"])]
      [("go", ["verb", "noun"])] { text := "go", tags := ["Word", "Verb"] }
      ["verb"] ["noun"] (by decide) (by decide) (by decide)).2
      ["Verb"] "xyzzy" ["verb"] (by decide)

end WritingSupport
